import Mathlib

/-
Verification of the multi-provider AI orchestration core of the
meeting-minutes-app repository (src/backend-enhanced/ai_orchestrator.py and
src/backend-enhanced/ai_multi_model.py), as a shallow embedding in Lean 4.

Python strings are modelled as `List Char`; Python floats as `ℚ` (exact
arithmetic over the same formulas); Python dicts that only grow by
`d[k] = d.get(k, 0) + 1` as insertion-ordered association lists; raised
exceptions as `Except` error values.  Network calls performed by the
provider adapters are external collaborators and are passed in as
function parameters (`call`), as is the JSON decoder `json.loads`
(`decode`), which is Python standard library, not repository code.
-/

namespace MMApp

/-- Characters stripped by Python str.strip() (the ASCII whitespace set). -/
def pySpace (c : Char) : Bool :=
  c = ' ' || c = '\t' || c = '\n' || c = '\x0d' || c = '\x0b' || c = '\x0c'

/-- Boolean prefix test on character lists. -/
def isPrefixL : List Char → List Char → Bool
  | [], _ => true
  | _ :: _, [] => false
  | a :: as, b :: bs => a = b && isPrefixL as bs

/-- Index (relative offset added to the accumulator i) of the first
occurrence of pat in the list, scanning left to right. -/
def findAux (pat : List Char) : List Char → Nat → Option Nat
  | [], i => if isPrefixL pat [] then some i else none
  | c :: rest, i =>
    if isPrefixL pat (c :: rest) then some i else findAux pat rest (i + 1)

/-- Python str.find(pat, start): smallest index at or after start where pat
occurs in hay, or -1 when there is none. -/
def pyFind (hay pat : List Char) (start : Nat) : Int :=
  match findAux pat (hay.drop start) 0 with
  | some j => ((start + j : Nat) : Int)
  | none => -1

/-- Python slice s[a:b], including negative-index normalization. -/
def pySlice (s : List Char) (a b : Int) : List Char :=
  (s.drop ((if a < 0 then max 0 ((s.length : Int) + a) else min a (s.length : Int)).toNat)).take
    ((if b < 0 then max 0 ((s.length : Int) + b) else min b (s.length : Int)).toNat -
      (if a < 0 then max 0 ((s.length : Int) + a) else min a (s.length : Int)).toNat)

/-- Python str.strip(): drop leading and trailing whitespace. -/
def pyStrip (s : List Char) : List Char :=
  ((s.dropWhile pySpace).reverse.dropWhile pySpace).reverse

/-- Values produced by decoding a JSON document (the result type of
json.loads in the source). -/
inductive JsonVal : Type where
  | null : JsonVal
  | bool : Bool → JsonVal
  | num : ℚ → JsonVal
  | str : List Char → JsonVal
  | arr : List JsonVal → JsonVal
  | obj : List (String × JsonVal) → JsonVal

/-- First-match association-list lookup (Python dict lookup; the source
never builds duplicate keys). -/
def alookup {α : Type} (k : String) : List (String × α) → Option α
  | [] => none
  | (k2, v) :: rest => if k2 = k then some v else alookup k rest

/-- Python float(x) applied to a decoded JSON value: numbers convert
exactly, booleans to 0/1; dicts, arrays, null and (in this model)
strings raise, which is returned as none. -/
def pyFloat : JsonVal → Option ℚ
  | JsonVal.num q => some q
  | JsonVal.bool b => some (if b then 1 else 0)
  | _ => none

/-- Python truthiness of a decoded JSON value. -/
def pyTruthy : JsonVal → Bool
  | JsonVal.null => false
  | JsonVal.bool b => b
  | JsonVal.num q => if q = 0 then false else true
  | JsonVal.str s => (match s with | [] => false | _ :: _ => true)
  | JsonVal.arr xs => (match xs with | [] => false | _ :: _ => true)
  | JsonVal.obj fs => (match fs with | [] => false | _ :: _ => true)

/-- Python membership test (needle in v) for a string needle: key lookup in
dicts, element equality in arrays, substring search in strings; a number,
boolean or null on the right raises TypeError (none). -/
def inOp (needle : String) : JsonVal → Option Bool
  | JsonVal.obj fs => some (alookup needle fs).isSome
  | JsonVal.arr xs =>
    some (xs.any fun x =>
      match x with
      | JsonVal.str s => s = needle.toList
      | _ => false)
  | JsonVal.str s => some (if pyFind s needle.toList 0 = -1 then false else true)
  | _ => none

-- ---------------------------------------------------------------------------
-- ai_orchestrator.py: AIOrchestrator._parse_response / _calculate_confidence
-- ---------------------------------------------------------------------------

/-- The marker string of a json-tagged markdown fence. -/
def fenceJson : List Char := ("```json").toList

/-- The bare markdown fence marker. -/
def fence3 : List Char := ("```").toList

/-- Extraction step of AIOrchestrator._parse_response: pick the decode
candidate out of the raw model text (json-tagged fence first, then any
fence, else the whole text), mirroring the find/slice/strip calls of the
source. -/
def parseCandidate (text : List Char) : List Char :=
  if pyFind text fenceJson 0 ≠ -1 then
    pyStrip (pySlice text (pyFind text fenceJson 0 + 7)
      (pyFind text fence3 (pyFind text fenceJson 0 + 7).toNat))
  else if pyFind text fence3 0 ≠ -1 then
    pyStrip (pySlice text (pyFind text fence3 0 + 3)
      (pyFind text fence3 (pyFind text fence3 0 + 3).toNat))
  else pyStrip text

/-- Fallback dictionary returned by _parse_response when json.loads raises
JSONDecodeError. -/
def degraded (text : List Char) : JsonVal :=
  JsonVal.obj [(("raw_response"), JsonVal.str text), (("parsed"), JsonVal.bool false)]

/-- AIOrchestrator._parse_response: extract the candidate, try the JSON
decoder (passed in as the model of json.loads), and degrade gracefully on
failure. -/
def parseResponse (decode : List Char → Option JsonVal) (text : List Char) : JsonVal :=
  match decode (parseCandidate text) with
  | some j => j
  | none => degraded text

/-- Tail of AIOrchestrator._calculate_confidence: result.get("parsed", True)
decides between the 0.85 and 0.5 defaults. -/
def fallbackConfidence (fs : List (String × JsonVal)) : ℚ :=
  match alookup ("parsed") fs with
  | some v => if pyTruthy v then 85/100 else 1/2
  | none => 85/100

/-- AIOrchestrator._calculate_confidence.  none models a raised exception
(float() on a non-numeric value, subscripting a non-dict, or .get on a
non-dict result). -/
def calculateConfidence : JsonVal → Option ℚ
  | JsonVal.obj fs =>
    (match alookup ("confidence") fs with
     | some v => pyFloat v
     | none =>
       match alookup ("overall_sentiment") fs with
       | some os =>
         (match inOp ("confidence") os with
          | none => none
          | some true =>
            (match os with
             | JsonVal.obj gs => pyFloat ((alookup ("confidence") gs).getD JsonVal.null)
             | _ => none)
          | some false => some (fallbackConfidence fs))
       | none => some (fallbackConfidence fs))
  | _ => none

-- ---------------------------------------------------------------------------
-- ai_orchestrator.py: AIModel, model_routing, AIResponse, process_task
-- ---------------------------------------------------------------------------

/-- The AIModel str-enum of ai_orchestrator.py. -/
inductive AIModel : Type where
  | CLAUDE_OPUS | CLAUDE_SONNET | CLAUDE_HAIKU
  | GPT4_TURBO | GPT4_VISION | GPT35_TURBO
  | GEMINI_PRO | GEMINI_FLASH
deriving DecidableEq

/-- String value of each AIModel member. -/
def modelValue : AIModel → String
  | AIModel.CLAUDE_OPUS => ("claude-3-opus-20240229")
  | AIModel.CLAUDE_SONNET => ("claude-3-5-sonnet-20241022")
  | AIModel.CLAUDE_HAIKU => ("claude-3-haiku-20240307")
  | AIModel.GPT4_TURBO => ("gpt-4-turbo-preview")
  | AIModel.GPT4_VISION => ("gpt-4-vision-preview")
  | AIModel.GPT35_TURBO => ("gpt-3.5-turbo")
  | AIModel.GEMINI_PRO => ("gemini-1.5-pro")
  | AIModel.GEMINI_FLASH => ("gemini-1.5-flash")

/-- The model_routing table of AIOrchestrator.__init__, keyed by the string
value of the TaskType str-enum (a TaskType key hashes and compares equal to
its string value, so dict access is string access). -/
def modelRouting : List (String × List AIModel) := [
  (("transcription"), [AIModel.GPT4_TURBO]),
  (("sentiment_analysis"), [AIModel.CLAUDE_SONNET, AIModel.GPT4_TURBO, AIModel.GEMINI_PRO]),
  (("action_extraction"), [AIModel.CLAUDE_SONNET, AIModel.GPT4_TURBO]),
  (("summary_generation"), [AIModel.CLAUDE_SONNET, AIModel.GPT4_TURBO, AIModel.GEMINI_FLASH]),
  (("speaker_diarization"), [AIModel.GPT4_TURBO, AIModel.CLAUDE_SONNET]),
  (("screenshot_analysis"), [AIModel.GPT4_VISION, AIModel.CLAUDE_SONNET]),
  (("decision_extraction"), [AIModel.CLAUDE_SONNET, AIModel.GPT4_TURBO]),
  (("topic_classification"), [AIModel.GEMINI_FLASH, AIModel.GPT35_TURBO, AIModel.CLAUDE_HAIKU]),
  (("deadline_prediction"), [AIModel.GPT4_TURBO, AIModel.CLAUDE_SONNET]),
  (("meeting_scoring"), [AIModel.CLAUDE_SONNET, AIModel.GPT4_TURBO])]

/-- The routing lookup of process_task, line 113:
self.model_routing.get(task_type, [AIModel.CLAUDE_SONNET]). -/
def routingGet (t : String) : List AIModel :=
  (alookup t modelRouting).getD [AIModel.CLAUDE_SONNET]

/-- AIResponse of ai_orchestrator.py, restricted to the fields the verified
claims mention (task_type, processing_time and tokens_used are dropped:
wall-clock time and the external token encoder are not modelled). -/
structure AIResp : Type where
  success : Bool
  model : String
  confidence : ℚ
  result : Option JsonVal
  error : Option String

/-- The list comprehension of process_task line 123: keep results that are
AIResponse values (not raised exceptions) with success set. -/
def okSuccess : Except String AIResp → Option AIResp
  | Except.ok r => if r.success then some r else none
  | Except.error _ => none

/-- Python max(xs, key=lambda x: x.confidence): fold keeping the current
maximum, replaced only on strictly greater key, so the first of several
equal maxima wins. -/
def pyMaxConf (x : AIResp) (xs : List AIResp) : AIResp :=
  xs.foldl (fun b y => if b.confidence < y.confidence then y else b) x

/-- Valid responses of the parallel branch of process_task: the gather over
the top two routed models (gather preserves input order), filtered to
successful AIResponse values. -/
def validOutcomes (call : AIModel → Except String AIResp) (t : String) : List AIResp :=
  (((routingGet t).take 2).map call).filterMap okSuccess

/-- The AIResponse built by the outer exception handler of process_task
(lines 151-162). -/
def unknownFailure (e : String) : AIResp :=
  { success := false, model := ("unknown"), confidence := 0, result := none,
    error := some e }

/-- The all-models-failed AIResponse of process_task lines 140-149. -/
def allFailedResp (m : AIModel) : AIResp :=
  { success := false, model := modelValue m, confidence := 0, result := none,
    error := some ("All models failed") }

/-- Sequential failover loop of process_task lines 130-137: first successful
response wins; raised exceptions and unsuccessful responses move on. -/
def seqTry (call : AIModel → Except String AIResp) : List AIModel → Option AIResp
  | [] => none
  | m :: rest =>
    match call m with
    | Except.ok r => if r.success then some r else seqTry call rest
    | Except.error _ => seqTry call rest

/-- AIOrchestrator.process_task of ai_orchestrator.py, with the per-model
call (prompting, transport and response parsing of _call_model) abstracted
as the function parameter call. -/
def processTask (call : AIModel → Except String AIResp) (taskType : String)
    (useParallel : Bool) : AIResp :=
  if useParallel = true ∧ 1 < (routingGet taskType).length then
    match validOutcomes call taskType with
    | v :: vs => pyMaxConf v vs
    | [] =>
      match call ((routingGet taskType).headD AIModel.CLAUDE_SONNET) with
      | Except.ok r => r
      | Except.error e => unknownFailure e
  else
    match seqTry call (routingGet taskType) with
    | some r => r
    | none => allFailedResp ((routingGet taskType).headD AIModel.CLAUDE_SONNET)

/-- AIOrchestrator._call_model of ai_orchestrator.py: the provider call
(raw, the transport result of _call_claude/_call_gpt/_call_gemini) is
parsed and scored; a raised exception anywhere surfaces as an error. -/
def callModel (decode : List Char → Option JsonVal)
    (raw : Except String (List Char)) (model : String) : Except String AIResp :=
  match raw with
  | Except.error e => Except.error e
  | Except.ok text =>
    let result := parseResponse decode text
    match calculateConfidence result with
    | none => Except.error ("confidence conversion failed")
    | some c =>
      Except.ok { success := true, model := model, confidence := c,
                  result := some result, error := none }

-- ---------------------------------------------------------------------------
-- ai_multi_model.py: registry, selector, ledger, generate, stats
-- ---------------------------------------------------------------------------

/-- The ModelProvider str-enum of ai_multi_model.py. -/
inductive ModelProvider : Type where
  | anthropic | openai | google
deriving DecidableEq

/-- String value of each ModelProvider member. -/
def providerValue : ModelProvider → String
  | ModelProvider.anthropic => ("anthropic")
  | ModelProvider.openai => ("openai")
  | ModelProvider.google => ("google")

/-- ModelConfig dataclass of ai_multi_model.py. -/
structure ModelConfig : Type where
  provider : ModelProvider
  model_id : String
  max_tokens : Nat
  temperature : ℚ
  cost_per_1k_tokens : ℚ
  speed_score : Nat
  quality_score : Nat
  is_available : Bool
deriving DecidableEq

/-- MODEL_REGISTRY of ai_multi_model.py, keyed by the string value of the
ModelType str-enum.  Decimal literals of the source are written as exact
fractions (0.003 = 3/1000 and so on). -/
def modelRegistry : List (String × List ModelConfig) := [
  (("vision"), [
    { provider := ModelProvider.anthropic, model_id := ("claude-3-5-sonnet-20241022"),
      max_tokens := 4096, temperature := 7/10, cost_per_1k_tokens := 3/1000,
      speed_score := 8, quality_score := 10, is_available := true },
    { provider := ModelProvider.openai, model_id := ("gpt-4-vision-preview"),
      max_tokens := 4096, temperature := 7/10, cost_per_1k_tokens := 1/100,
      speed_score := 6, quality_score := 9, is_available := true },
    { provider := ModelProvider.google, model_id := ("gemini-pro-vision"),
      max_tokens := 4096, temperature := 7/10, cost_per_1k_tokens := 25/100000,
      speed_score := 9, quality_score := 8, is_available := true }]),
  (("audio"), [
    { provider := ModelProvider.openai, model_id := ("whisper-1"),
      max_tokens := 0, temperature := 7/10, cost_per_1k_tokens := 6/1000,
      speed_score := 7, quality_score := 10, is_available := true }]),
  (("analysis"), [
    { provider := ModelProvider.anthropic, model_id := ("claude-3-opus-20240229"),
      max_tokens := 4096, temperature := 1/2, cost_per_1k_tokens := 15/1000,
      speed_score := 6, quality_score := 10, is_available := true },
    { provider := ModelProvider.openai, model_id := ("gpt-4-turbo-preview"),
      max_tokens := 4096, temperature := 1/2, cost_per_1k_tokens := 1/100,
      speed_score := 8, quality_score := 9, is_available := true },
    { provider := ModelProvider.google, model_id := ("gemini-1.5-pro-latest"),
      max_tokens := 8192, temperature := 1/2, cost_per_1k_tokens := 125/100000,
      speed_score := 9, quality_score := 8, is_available := true }]),
  (("summary"), [
    { provider := ModelProvider.anthropic, model_id := ("claude-3-haiku-20240307"),
      max_tokens := 4096, temperature := 3/10, cost_per_1k_tokens := 25/100000,
      speed_score := 10, quality_score := 8, is_available := true },
    { provider := ModelProvider.openai, model_id := ("gpt-3.5-turbo-16k"),
      max_tokens := 4096, temperature := 3/10, cost_per_1k_tokens := 15/10000,
      speed_score := 9, quality_score := 7, is_available := true },
    { provider := ModelProvider.google, model_id := ("gemini-pro"),
      max_tokens := 4096, temperature := 3/10, cost_per_1k_tokens := 25/100000,
      speed_score := 9, quality_score := 7, is_available := true }]),
  (("code"), [
    { provider := ModelProvider.anthropic, model_id := ("claude-3-5-sonnet-20241022"),
      max_tokens := 4096, temperature := 0, cost_per_1k_tokens := 3/1000,
      speed_score := 8, quality_score := 10, is_available := true },
    { provider := ModelProvider.openai, model_id := ("gpt-4"),
      max_tokens := 4096, temperature := 0, cost_per_1k_tokens := 3/100,
      speed_score := 7, quality_score := 9, is_available := true }])]

/-- MODEL_REGISTRY.get(model_type, []) of _select_models. -/
def registryGet (t : String) : List ModelConfig :=
  (alookup t modelRegistry).getD []

/-- Cost filter of _select_models: max_cost is None or
cost_per_1k_tokens <= max_cost. -/
def costOk (mc : Option ℚ) (m : ModelConfig) : Bool :=
  match mc with
  | none => true
  | some c => m.cost_per_1k_tokens ≤ c

/-- Sort key applied by _select_models: speed_score when prefer_speed,
quality_score when prefer_quality, else the (quality+speed)/2 balance. -/
def prefKey (ps pq : Bool) (m : ModelConfig) : ℚ :=
  if ps then (m.speed_score : ℚ)
  else if pq then (m.quality_score : ℚ)
  else ((m.quality_score : ℚ) + (m.speed_score : ℚ)) / 2

/-- Stable descending insertion: x goes in front of the first element whose
key does not exceed its own (elements inserted earlier with an equal key
stay in front of later ones, matching Python stable list.sort with
reverse=True). -/
def insertD (key : ModelConfig → ℚ) (x : ModelConfig) : List ModelConfig → List ModelConfig
  | [] => [x]
  | y :: ys => if key y ≤ key x then x :: y :: ys else y :: insertD key x ys

/-- Stable descending sort by key (the semantics of Python
list.sort(key=..., reverse=True)). -/
def sortD (key : ModelConfig → ℚ) : List ModelConfig → List ModelConfig
  | [] => []
  | x :: xs => insertD key x (sortD key xs)

/-- Core of AIOrchestrator._select_models on an explicit candidate list:
filter by availability and cost ceiling, return [] when nothing survives,
else sort by the active preference key, descending and stable. -/
def selectModelsFrom (models : List ModelConfig) (ps pq : Bool) (mc : Option ℚ) :
    List ModelConfig :=
  let available := models.filter fun m => m.is_available && costOk mc m
  match available with
  | [] => []
  | _ :: _ => sortD (prefKey ps pq) available

/-- AIOrchestrator._select_models of ai_multi_model.py. -/
def selectModels (t : String) (ps pq : Bool) (mc : Option ℚ) : List ModelConfig :=
  selectModelsFrom (registryGet t) ps pq mc

/-- The mutable counters of AIOrchestrator.__init__ in ai_multi_model.py:
request_count, error_count (insertion-ordered dicts) and total_cost. -/
structure Ledger : Type where
  request_count : List (String × Nat)
  error_count : List (String × Nat)
  total_cost : ℚ
deriving DecidableEq

/-- The ledger as initialized by AIOrchestrator.__init__. -/
def emptyLedger : Ledger :=
  { request_count := [], error_count := [], total_cost := 0 }

/-- Python d[key] = d.get(key, 0) + 1 on an insertion-ordered dict. -/
def bump (k : String) : List (String × Nat) → List (String × Nat)
  | [] => [(k, 1)]
  | (k2, n) :: rest => if k2 = k then (k2, n + 1) :: rest else (k2, n) :: bump k rest

/-- Counter read-out: d.get(k, 0). -/
def lookupN (l : List (String × Nat)) (k : String) : Nat :=
  (alookup k l).getD 0

/-- The tracking key f-string of _track_success/_track_error:
provider value, slash, model id. -/
def trackKey (m : ModelConfig) : String :=
  providerValue m.provider ++ ("/") ++ m.model_id

/-- Errors escaping AIOrchestrator.generate: the ValueError for an empty
selection and the RuntimeError raised after every candidate failed (the
message embeds the model type and the last provider error). -/
inductive GenErr : Type where
  | noModels (t : String)
  | allFailed (t : String) (last : Option String)
deriving DecidableEq

/-- The result dict of a successful AIOrchestrator.generate (latency_ms is
wall-clock and not modelled). -/
structure GenResult : Type where
  response : List Char
  model_used : String
  provider : String
  cost : ℚ
  success : Bool
deriving DecidableEq

/-- The cost formula of _estimate_cost: tokens = (len(prompt)+len(response))/4,
cost = tokens/1000 * cost_per_1k_tokens. -/
def estCost (prompt resp : List Char) (m : ModelConfig) : ℚ :=
  (((prompt.length : ℚ) + (resp.length : ℚ)) / 4) / 1000 * m.cost_per_1k_tokens

/-- The failover loop of AIOrchestrator.generate (lines 256-306), threading
the ledger explicitly: on success _track_success bumps the request counter
and _estimate_cost adds the estimate to total_cost and returns it in the
result dict; on a raised provider error _track_error bumps the error
counter, last_error is updated and the next candidate is tried; when the
candidates run out the RuntimeError carrying the last error escapes. -/
def generateLoop (call : ModelConfig → Except String (List Char))
    (prompt : List Char) (t : String) :
    List ModelConfig → Option String → Ledger → Except GenErr GenResult × Ledger
  | [], last, st => (Except.error (GenErr.allFailed t last), st)
  | m :: rest, _last, st =>
    match call m with
    | Except.ok resp =>
      let st1 : Ledger := { st with request_count := bump (trackKey m) st.request_count }
      let cost := estCost prompt resp m
      let st2 : Ledger := { st1 with total_cost := st1.total_cost + cost }
      (Except.ok { response := resp, model_used := m.model_id,
                   provider := providerValue m.provider, cost := cost,
                   success := true }, st2)
    | Except.error e =>
      generateLoop call prompt t rest (some e)
        { st with error_count := bump (trackKey m) st.error_count }

/-- AIOrchestrator.generate of ai_multi_model.py, with the per-provider
transport (_generate_anthropic/_generate_openai/_generate_google)
abstracted as the function parameter call. -/
def generate (call : ModelConfig → Except String (List Char)) (prompt : List Char)
    (t : String) (ps pq : Bool) (mc : Option ℚ) (st : Ledger) :
    Except GenErr GenResult × Ledger :=
  match selectModels t ps pq mc with
  | [] => (Except.error (GenErr.noModels t), st)
  | m :: rest => generateLoop call prompt t (m :: rest) none st

/-- Sum of the values of a counter dict (sum(d.values())). -/
def sumVals (l : List (String × Nat)) : Nat :=
  (l.map fun p => p.2).sum

/-- Round-half-even of a rational to an integer (Python round on a float,
restricted to the exact values the accounting produces). -/
def roundHalfEven (q : ℚ) : Int :=
  let f : Int := Int.floor q
  let r : ℚ := q - (f : ℚ)
  if r < 1/2 then f
  else if 1/2 < r then f + 1
  else if Even f then f else f + 1

/-- Python round(x, 4) on the cumulative cost. -/
def roundTo4 (q : ℚ) : ℚ :=
  ((roundHalfEven (q * 10000) : ℚ)) / 10000

/-- AIOrchestrator._calculate_success_rate. -/
def calcSuccessRate (st : Ledger) : ℚ :=
  let tr := sumVals st.request_count
  let te := sumVals st.error_count
  if tr + te = 0 then 1 else (tr : ℚ) / ((tr + te : Nat) : ℚ)

/-- The stats dict returned by AIOrchestrator.get_stats. -/
structure Stats : Type where
  total_requests : Nat
  total_errors : Nat
  total_cost_usd : ℚ
  requests_by_model : List (String × Nat)
  errors_by_model : List (String × Nat)
  success_rate : ℚ
deriving DecidableEq

/-- AIOrchestrator.get_stats of ai_multi_model.py. -/
def getStats (st : Ledger) : Stats :=
  { total_requests := sumVals st.request_count,
    total_errors := sumVals st.error_count,
    total_cost_usd := roundTo4 st.total_cost,
    requests_by_model := st.request_count,
    errors_by_model := st.error_count,
    success_rate := calcSuccessRate st }

-- ---------------------------------------------------------------------------
-- Helper lemmas: counters
-- ---------------------------------------------------------------------------

theorem sumVals_nil : sumVals [] = 0 := rfl

theorem sumVals_cons (k : String) (n : Nat) (l : List (String × Nat)) :
    sumVals ((k, n) :: l) = n + sumVals l := by
  simp [sumVals]

theorem sumVals_bump (k : String) (l : List (String × Nat)) :
    sumVals (bump k l) = sumVals l + 1 := by
  induction l with
  | nil => simp [bump, sumVals]
  | cons p rest ih =>
    obtain ⟨k2, n⟩ := p
    by_cases h : k2 = k
    · simp only [bump, if_pos h, sumVals_cons]
      omega
    · simp only [bump, if_neg h, sumVals_cons, ih]
      omega

theorem lookupN_bump (k : String) (l : List (String × Nat)) :
    lookupN (bump k l) k = lookupN l k + 1 := by
  induction l with
  | nil => simp [bump, lookupN, alookup]
  | cons p rest ih =>
    obtain ⟨k2, n⟩ := p
    by_cases h : k2 = k
    · simp [bump, lookupN, alookup, h]
    · simp only [bump, if_neg h, lookupN, alookup]
      simpa only [lookupN] using ih

-- ---------------------------------------------------------------------------
-- Helper lemmas: the stable descending sort of the Selector
-- ---------------------------------------------------------------------------

theorem insertD_mem (key : ModelConfig → ℚ) (x z : ModelConfig) :
    ∀ l : List ModelConfig, z ∈ insertD key x l ↔ z = x ∨ z ∈ l := by
  intro l
  induction l with
  | nil => simp [insertD]
  | cons y ys ih =>
    by_cases h : key y ≤ key x
    · simp only [insertD, if_pos h, List.mem_cons]
    · simp only [insertD, if_neg h, List.mem_cons, ih]
      tauto

theorem insertD_filter (key : ModelConfig → ℚ) (x : ModelConfig) (k : ℚ) :
    ∀ l : List ModelConfig,
    (insertD key x l).filter (fun m => decide (key m = k)) =
      if key x = k then x :: l.filter (fun m => decide (key m = k))
      else l.filter (fun m => decide (key m = k)) := by
  intro l
  induction l with
  | nil =>
    by_cases h : key x = k <;> simp [insertD, List.filter_cons, h]
  | cons y ys ih =>
    by_cases hyx : key y ≤ key x
    · have h1 : insertD key x (y :: ys) = x :: y :: ys := by
        simp only [insertD]
        rw [if_pos hyx]
      rw [h1]
      by_cases hx : key x = k <;> simp [List.filter_cons, hx]
    · have h1 : insertD key x (y :: ys) = y :: insertD key x ys := by
        simp only [insertD]
        rw [if_neg hyx]
      rw [h1]
      by_cases hy : key y = k
      · have hx : ¬ key x = k := by
          intro hh
          exact hyx (by rw [hy, ← hh])
        simp [List.filter_cons, hy, hx, ih]
      · by_cases hx : key x = k <;> simp [List.filter_cons, hy, hx, ih]

theorem insertD_pairwise (key : ModelConfig → ℚ) (x : ModelConfig)
    (l : List ModelConfig) (h : l.Pairwise fun a b => key b ≤ key a) :
    (insertD key x l).Pairwise fun a b => key b ≤ key a := by
  induction l with
  | nil => simp [insertD]
  | cons y ys ih =>
    rcases List.pairwise_cons.mp h with ⟨hy, hys⟩
    by_cases hyx : key y ≤ key x
    · simp only [insertD, if_pos hyx]
      refine List.pairwise_cons.mpr ⟨?_, h⟩
      intro z hz
      rcases List.mem_cons.mp hz with rfl | hz
      · exact hyx
      · exact le_trans (hy z hz) hyx
    · simp only [insertD, if_neg hyx]
      refine List.pairwise_cons.mpr ⟨?_, ih hys⟩
      intro z hz
      rcases (insertD_mem key x z ys).mp hz with rfl | hz
      · exact le_of_lt (lt_of_not_le hyx)
      · exact hy z hz

theorem sortD_filter (key : ModelConfig → ℚ) (k : ℚ) :
    ∀ l : List ModelConfig,
    (sortD key l).filter (fun m => decide (key m = k)) =
      l.filter (fun m => decide (key m = k)) := by
  intro l
  induction l with
  | nil => rfl
  | cons x xs ih =>
    simp only [sortD]
    rw [insertD_filter]
    by_cases hx : key x = k <;> simp [List.filter_cons, hx, ih]

theorem sortD_pairwise (key : ModelConfig → ℚ) :
    ∀ l : List ModelConfig, (sortD key l).Pairwise fun a b => key b ≤ key a := by
  intro l
  induction l with
  | nil => simp [sortD]
  | cons x xs ih => exact insertD_pairwise key x _ ih

theorem selectFrom_filter (models : List ModelConfig) (ps pq : Bool) (mc : Option ℚ)
    (k : ℚ) :
    (selectModelsFrom models ps pq mc).filter (fun m => decide (prefKey ps pq m = k)) =
      (models.filter fun m => m.is_available && costOk mc m).filter
        (fun m => decide (prefKey ps pq m = k)) := by
  unfold selectModelsFrom
  cases h : models.filter (fun m => m.is_available && costOk mc m) with
  | nil => simp
  | cons a l =>
    simp only []
    rw [← h]
    exact sortD_filter (prefKey ps pq) k _

theorem selectFrom_pairwise (models : List ModelConfig) (ps pq : Bool) (mc : Option ℚ) :
    (selectModelsFrom models ps pq mc).Pairwise
      (fun a b => prefKey ps pq b ≤ prefKey ps pq a) := by
  unfold selectModelsFrom
  cases h : models.filter (fun m => m.is_available && costOk mc m) with
  | nil => simp
  | cons a l => exact sortD_pairwise (prefKey ps pq) _

-- ---------------------------------------------------------------------------
-- Helper lemma: Python max keeps the first of equal maxima
-- ---------------------------------------------------------------------------

theorem pyMaxConf_split : ∀ (xs : List AIResp) (x : AIResp),
    ∃ pre post, x :: xs = pre ++ pyMaxConf x xs :: post
      ∧ (∀ y ∈ pre, y.confidence < (pyMaxConf x xs).confidence)
      ∧ (∀ y ∈ post, y.confidence ≤ (pyMaxConf x xs).confidence) := by
  intro xs
  induction xs with
  | nil =>
    intro x
    refine ⟨[], [], rfl, ?_, ?_⟩ <;> simp
  | cons y ys ih =>
    intro x
    have hstep : pyMaxConf x (y :: ys) =
        pyMaxConf (if x.confidence < y.confidence then y else x) ys := rfl
    by_cases h : x.confidence < y.confidence
    · rw [hstep, if_pos h]
      obtain ⟨pre, post, heq, hpre, hpost⟩ := ih y
      refine ⟨x :: pre, post, ?_, ?_, hpost⟩
      · rw [List.cons_append, ← heq]
      · intro z hz
        rcases List.mem_cons.mp hz with rfl | hz
        · cases pre with
          | nil =>
            rw [List.nil_append, List.cons.injEq] at heq
            rw [← heq.1]
            exact h
          | cons p pre2 =>
            rw [List.cons_append, List.cons.injEq] at heq
            have hylt := hpre p (List.mem_cons_self p pre2)
            rw [← heq.1] at hylt
            exact lt_trans h hylt
        · exact hpre z hz
    · rw [hstep, if_neg h]
      obtain ⟨pre, post, heq, hpre, hpost⟩ := ih x
      cases pre with
      | nil =>
        rw [List.nil_append, List.cons.injEq] at heq
        refine ⟨[], y :: post, ?_, ?_, ?_⟩
        · rw [List.nil_append, ← heq.1, ← heq.2]
        · intro z hz; cases hz
        · intro z hz
          rcases List.mem_cons.mp hz with rfl | hz
          · rw [← heq.1]
            exact le_of_not_lt h
          · exact hpost z hz
      | cons p pre2 =>
        rw [List.cons_append, List.cons.injEq] at heq
        have hxlt := hpre p (List.mem_cons_self p pre2)
        rw [← heq.1] at hxlt
        refine ⟨x :: y :: pre2, post, ?_, ?_, hpost⟩
        · rw [List.cons_append, List.cons_append, ← heq.2]
        · intro z hz
          rcases List.mem_cons.mp hz with rfl | hz
          · exact hxlt
          · rcases List.mem_cons.mp hz with rfl | hz2
            · exact lt_of_le_of_lt (le_of_not_lt h) hxlt
            · exact hpre z (List.mem_cons_of_mem p hz2)

-- ---------------------------------------------------------------------------
-- Helper lemmas: find / slice
-- ---------------------------------------------------------------------------

theorem isPrefixL_length : ∀ {pat xs : List Char}, isPrefixL pat xs = true →
    pat.length ≤ xs.length := by
  intro pat
  induction pat with
  | nil => intro xs _; simp
  | cons a as ih =>
    intro xs h
    cases xs with
    | nil => simp [isPrefixL] at h
    | cons b bs =>
      simp only [isPrefixL, Bool.and_eq_true] at h
      have := ih h.2
      simp only [List.length_cons]
      omega

theorem findAux_spec {pat : List Char} : ∀ {l : List Char} {j r : Nat},
    findAux pat l j = some r →
    j ≤ r ∧ r - j ≤ l.length ∧ isPrefixL pat (l.drop (r - j)) = true := by
  intro l
  induction l with
  | nil =>
    intro j r h
    unfold findAux at h
    by_cases hp : isPrefixL pat [] = true
    · rw [if_pos hp] at h
      injection h with h
      subst h
      exact ⟨le_refl _, by simp, by simpa using hp⟩
    · rw [if_neg hp] at h
      cases h
  | cons c rest ih =>
    intro j r h
    unfold findAux at h
    by_cases hp : isPrefixL pat (c :: rest) = true
    · rw [if_pos hp] at h
      injection h with h
      subst h
      refine ⟨le_refl _, by simp, ?_⟩
      simpa using hp
    · rw [if_neg hp] at h
      obtain ⟨h1, h2, h3⟩ := ih h
      refine ⟨by omega, by simp only [List.length_cons]; omega, ?_⟩
      have hr : r - j = (r - (j + 1)) + 1 := by omega
      rw [hr]
      simpa using h3

theorem pyFind_zero_spec {hay pat : List Char} {i : Nat}
    (h : pyFind hay pat 0 = (i : Int)) :
    isPrefixL pat (hay.drop i) = true ∧ i + pat.length ≤ hay.length := by
  unfold pyFind at h
  cases hfa : findAux pat (hay.drop 0) 0 with
  | none =>
    simp only [hfa] at h
    omega
  | some j =>
    simp only [hfa] at h
    have hj : j = i := by omega
    subst hj
    obtain ⟨_, h2, h3⟩ := findAux_spec hfa
    rw [List.drop_zero] at h2 h3
    simp only [Nat.sub_zero] at h2 h3
    refine ⟨h3, ?_⟩
    have := isPrefixL_length h3
    rw [List.length_drop] at this
    omega

theorem pySlice_to_neg_one {s : List Char} {a : Nat} (ha : a ≤ s.length) :
    pySlice s (a : Int) (-1) = (s.take (s.length - 1)).drop a := by
  unfold pySlice
  have h1 : ¬ ((a : Int) < 0) := by omega
  have h2 : ((-1 : Int) < 0) := by omega
  rw [if_neg h1, if_pos h2]
  have ha2 : (min (a : Int) (s.length : Int)).toNat = a := by omega
  have hb2 : (max 0 ((s.length : Int) + (-1))).toNat = s.length - 1 := by omega
  rw [ha2, hb2, List.drop_take]


-- ---------------------------------------------------------------------------
-- Helper lemmas: the failover loop of generate
-- ---------------------------------------------------------------------------

theorem generateLoop_allFail (call : ModelConfig → Except String (List Char))
    (prompt : List Char) (t : String) (errs : ModelConfig → String) :
    ∀ (ms : List ModelConfig) (last : Option String) (st : Ledger),
    ms ≠ [] → (∀ m ∈ ms, call m = Except.error (errs m)) →
    (generateLoop call prompt t ms last st).1
        = Except.error (GenErr.allFailed t (ms.getLast?.map errs))
    ∧ sumVals (generateLoop call prompt t ms last st).2.error_count
        = sumVals st.error_count + ms.length
    ∧ (generateLoop call prompt t ms last st).2.request_count = st.request_count
    ∧ (generateLoop call prompt t ms last st).2.total_cost = st.total_cost := by
  intro ms
  induction ms with
  | nil => intro last st hne _; exact absurd rfl hne
  | cons m rest ih =>
    intro last st _ hfail
    have hm : call m = Except.error (errs m) := hfail m (List.mem_cons_self m rest)
    cases rest with
    | nil =>
      simp only [generateLoop, hm]
      refine ⟨by simp, ?_, by trivial, by trivial⟩
      rw [sumVals_bump]
      simp
    | cons m2 rest2 =>
      have hstep : generateLoop call prompt t (m :: m2 :: rest2) last st =
          generateLoop call prompt t (m2 :: rest2) (some (errs m))
            { st with error_count := bump (trackKey m) st.error_count } := by
        simp only [generateLoop, hm]
      obtain ⟨i1, i2, i3, i4⟩ := ih (some (errs m))
        { st with error_count := bump (trackKey m) st.error_count }
        (by simp) (fun m3 hm3 => hfail m3 (List.mem_cons_of_mem m hm3))
      rw [hstep]
      refine ⟨?_, ?_, i3, i4⟩
      · rw [i1, List.getLast?_cons_cons]
      · rw [i2]
        simp only [sumVals_bump, List.length_cons]
        omega

theorem generateLoop_ok (call : ModelConfig → Except String (List Char))
    (prompt : List Char) (t : String) :
    ∀ (ms : List ModelConfig) (last : Option String) (st st2 : Ledger) (res : GenResult),
    generateLoop call prompt t ms last st = (Except.ok res, st2) →
    ∃ m, m ∈ ms ∧ call m = Except.ok res.response
      ∧ res.model_used = m.model_id
      ∧ res.cost = estCost prompt res.response m
      ∧ st2.total_cost = st.total_cost + res.cost
      ∧ lookupN st2.request_count (trackKey m)
          = lookupN st.request_count (trackKey m) + 1 := by
  intro ms
  induction ms with
  | nil =>
    intro last st st2 res h
    simp only [generateLoop] at h
    cases h
  | cons m rest ih =>
    intro last st st2 res h
    cases hc : call m with
    | ok resp =>
      simp only [generateLoop, hc] at h
      obtain ⟨h1, h2⟩ := Prod.mk.injEq .. ▸ h
      injection h1 with h1
      subst h1
      subst h2
      refine ⟨m, List.mem_cons_self m rest, ?_, rfl, rfl, rfl, ?_⟩
      · rw [hc]
      · exact lookupN_bump (trackKey m) st.request_count
    | error e =>
      simp only [generateLoop, hc] at h
      obtain ⟨m2, hmem, hcall, hid, hcost, htot, hreq⟩ := ih (some e)
        { st with error_count := bump (trackKey m) st.error_count } st2 res h
      exact ⟨m2, List.mem_cons_of_mem m hmem, hcall, hid, hcost, htot, hreq⟩

theorem generate_eq_loop (call : ModelConfig → Except String (List Char))
    (prompt : List Char) (t : String) (ps pq : Bool) (mc : Option ℚ) (st : Ledger)
    (hne : selectModels t ps pq mc ≠ []) :
    generate call prompt t ps pq mc st
      = generateLoop call prompt t (selectModels t ps pq mc) none st := by
  unfold generate
  cases h : selectModels t ps pq mc with
  | nil => exact absurd h hne
  | cons m rest => rfl

-- ---------------------------------------------------------------------------
-- Claim theorems
-- ---------------------------------------------------------------------------

/-- C9: for every ledger state, stats().success_rate equals
total_requests / (total_requests + total_errors) where the two totals are
the sums of the per-model counters, and equals 1.0 when both sums are zero
(shown both as the general zero branch and on the freshly initialized
ledger). -/
theorem stats_success_rate (st : Ledger) :
    (getStats st).total_requests = sumVals st.request_count
    ∧ (getStats st).total_errors = sumVals st.error_count
    ∧ (getStats st).success_rate =
        (if (getStats st).total_requests + (getStats st).total_errors = 0 then 1
         else ((getStats st).total_requests : ℚ)
            / (((getStats st).total_requests + (getStats st).total_errors : Nat) : ℚ))
    ∧ (getStats emptyLedger).success_rate = 1 := by
  exact ⟨rfl, rfl, rfl, rfl⟩

/-- Example candidate A of the spec's selection-ordering test: speed 8. -/
def exA : ModelConfig :=
  { provider := ModelProvider.anthropic, model_id := ("model-a"),
    max_tokens := 1000, temperature := 1/2, cost_per_1k_tokens := 1/100,
    speed_score := 8, quality_score := 5, is_available := true }

/-- Example candidate B of the spec's selection-ordering test: speed 9. -/
def exB : ModelConfig :=
  { provider := ModelProvider.openai, model_id := ("model-b"),
    max_tokens := 1000, temperature := 1/2, cost_per_1k_tokens := 1/100,
    speed_score := 9, quality_score := 5, is_available := true }

/-- Example candidate C of the spec's selection-ordering test: speed 8. -/
def exC : ModelConfig :=
  { provider := ModelProvider.google, model_id := ("model-c"),
    max_tokens := 1000, temperature := 1/2, cost_per_1k_tokens := 1/100,
    speed_score := 8, quality_score := 5, is_available := true }

/-- C5: _select_models keeps exactly the available candidates within the
cost ceiling (membership conjunct), orders them descending by the active
preference key (pairwise conjunct), is stable in the sense that candidates
of equal key keep their original registry order (filter conjunct: for every
key value, the subsequence at that key is untouched), and on the spec's
example A(speed 8), B(speed 9), C(speed 8) with prefer_speed the output is
[B, A, C]. -/
theorem selector_ordering (models : List ModelConfig) (ps pq : Bool) (mc : Option ℚ) :
    (∀ k : ℚ, (selectModelsFrom models ps pq mc).filter
        (fun m => decide (prefKey ps pq m = k)) =
      (models.filter fun m => m.is_available && costOk mc m).filter
        (fun m => decide (prefKey ps pq m = k)))
    ∧ (selectModelsFrom models ps pq mc).Pairwise
        (fun a b => prefKey ps pq b ≤ prefKey ps pq a)
    ∧ (∀ m : ModelConfig, m ∈ selectModelsFrom models ps pq mc
        ↔ m ∈ models.filter fun m2 => m2.is_available && costOk mc m2)
    ∧ selectModelsFrom [exA, exB, exC] true false none = [exB, exA, exC] := by
  refine ⟨fun k => selectFrom_filter models ps pq mc k,
          selectFrom_pairwise models ps pq mc, ?_, by rfl⟩
  intro m
  constructor
  · intro hm
    have h1 : m ∈ (selectModelsFrom models ps pq mc).filter
        (fun m2 => decide (prefKey ps pq m2 = prefKey ps pq m)) :=
      List.mem_filter.mpr ⟨hm, by simp⟩
    rw [selectFrom_filter] at h1
    exact (List.mem_filter.mp h1).1
  · intro hm
    have h1 : m ∈ (models.filter fun m2 => m2.is_available && costOk mc m2).filter
        (fun m2 => decide (prefKey ps pq m2 = prefKey ps pq m)) :=
      List.mem_filter.mpr ⟨hm, by simp⟩
    rw [← selectFrom_filter models ps pq mc] at h1
    exact (List.mem_filter.mp h1).1

/-- C3: if every candidate of a sequential failover run of generate fails,
the run raises the all-failed error (the RuntimeError of the source)
carrying the task category of the candidates tried and the error of the
last candidate, the ledger's total error count grows by exactly the number
of candidates tried, and the request counters are untouched.  (generate in
ai_multi_model.py is the sequential-failover entry point that owns the
ledger; its RuntimeError message embeds the model type and last error.) -/
theorem allfailed_error_accounting (call : ModelConfig → Except String (List Char))
    (prompt : List Char) (t : String) (ps pq : Bool) (mc : Option ℚ) (st : Ledger)
    (errs : ModelConfig → String)
    (hne : selectModels t ps pq mc ≠ [])
    (hfail : ∀ m ∈ selectModels t ps pq mc, call m = Except.error (errs m)) :
    (generate call prompt t ps pq mc st).1
        = Except.error (GenErr.allFailed t ((selectModels t ps pq mc).getLast?.map errs))
    ∧ sumVals (generate call prompt t ps pq mc st).2.error_count
        = sumVals st.error_count + (selectModels t ps pq mc).length
    ∧ (generate call prompt t ps pq mc st).2.request_count = st.request_count := by
  rw [generate_eq_loop call prompt t ps pq mc st hne]
  obtain ⟨h1, h2, h3, _⟩ := generateLoop_allFail call prompt t errs
    (selectModels t ps pq mc) none st hne hfail
  exact ⟨h1, h2, h3⟩

/-- Provider call that always raises, used as the concrete instance for the
all-failed witness. -/
def c3call : ModelConfig → Except String (List Char) := fun _ => Except.error ("boom")

/-- Witness for C3: all three summary candidates fail under prefer_speed;
the error escapes with the category and last error and total_errors rises
from 0 to 3. -/
theorem allfailed_error_accounting_witness :
    (generate c3call [] ("summary") true false none emptyLedger).1
        = Except.error (GenErr.allFailed ("summary")
            ((selectModels ("summary") true false none).getLast?.map fun _ => ("boom")))
    ∧ sumVals (generate c3call [] ("summary") true false none emptyLedger).2.error_count
        = sumVals emptyLedger.error_count + (selectModels ("summary") true false none).length
    ∧ (generate c3call [] ("summary") true false none emptyLedger).2.request_count
        = emptyLedger.request_count :=
  allfailed_error_accounting c3call [] ("summary") true false none emptyLedger
    (fun _ => ("boom")) (List.cons_ne_nil _ _) (fun _ _ => rfl)

/-- C8: whenever generate succeeds, the model used is one of the selected
candidates, its request counter is incremented by exactly one, the ledger's
running total cost grows by exactly
((len(prompt)+len(response))/4)/1000 * cost_per_1k_tokens of that model,
and the same amount is the cost value in the returned outcome. -/
theorem success_cost_accounting (call : ModelConfig → Except String (List Char))
    (prompt : List Char) (t : String) (ps pq : Bool) (mc : Option ℚ) (st st2 : Ledger)
    (res : GenResult)
    (h : generate call prompt t ps pq mc st = (Except.ok res, st2)) :
    ∃ m, m ∈ selectModels t ps pq mc ∧ call m = Except.ok res.response
      ∧ res.model_used = m.model_id
      ∧ res.cost = estCost prompt res.response m
      ∧ st2.total_cost = st.total_cost + res.cost
      ∧ lookupN st2.request_count (trackKey m)
          = lookupN st.request_count (trackKey m) + 1 := by
  have hne : selectModels t ps pq mc ≠ [] := by
    intro hnil
    unfold generate at h
    rw [hnil] at h
    simp at h
  rw [generate_eq_loop call prompt t ps pq mc st hne] at h
  exact generateLoop_ok call prompt t (selectModels t ps pq mc) none st st2 res h

/-- Concrete prompt for the cost-accounting witness. -/
def c8prompt : List Char := ("abcd").toList

/-- Concrete provider response for the cost-accounting witness. -/
def c8resp : List Char := ("ok!!").toList

/-- Provider call that always succeeds with c8resp. -/
def c8call : ModelConfig → Except String (List Char) := fun _ => Except.ok c8resp

/-- The audio registry entry (whisper-1), spelled out for the witness. -/
def whisperCfg : ModelConfig :=
  { provider := ModelProvider.openai, model_id := ("whisper-1"),
    max_tokens := 0, temperature := 7/10, cost_per_1k_tokens := 6/1000,
    speed_score := 7, quality_score := 10, is_available := true }

/-- The result generate produces in the witness run. -/
def c8res : GenResult :=
  { response := c8resp, model_used := ("whisper-1"), provider := ("openai"),
    cost := estCost c8prompt c8resp whisperCfg, success := true }

/-- The ledger state after the witness run. -/
def c8st2 : Ledger :=
  { request_count := [(("openai/whisper-1"), 1)], error_count := [],
    total_cost := emptyLedger.total_cost + estCost c8prompt c8resp whisperCfg }

/-- Witness for C8: a successful audio generation increments whisper-1's
request counter from 0 to 1 and adds exactly the estimate to the total. -/
theorem success_cost_accounting_witness :
    ∃ m, m ∈ selectModels ("audio") false false none
      ∧ c8call m = Except.ok c8res.response
      ∧ c8res.model_used = m.model_id
      ∧ c8res.cost = estCost c8prompt c8res.response m
      ∧ c8st2.total_cost = emptyLedger.total_cost + c8res.cost
      ∧ lookupN c8st2.request_count (trackKey m)
          = lookupN emptyLedger.request_count (trackKey m) + 1 :=
  success_cost_accounting c8call c8prompt ("audio") false false none
    emptyLedger c8st2 c8res rfl

/-- A successful response used by several concrete runs. -/
def respOK : AIResp :=
  { success := true, model := ("gemini-1.5-pro"), confidence := 1,
    result := none, error := none }

/-- C4 counterexample: the category string code_review is absent from the
routing table of process_task, yet the lookup silently yields the default
candidate list [claude-3-5-sonnet] and a provider call is attempted on it,
refuting the claim that an unknown category always fails fast with a
configuration error before any provider call. -/
theorem unknown_category_counterexample :
    alookup ("code_review") modelRouting = none
    ∧ routingGet ("code_review") = [AIModel.CLAUDE_SONNET]
    ∧ processTask (fun _ => Except.ok respOK) ("code_review") false = respOK :=
  ⟨rfl, rfl, rfl⟩

/-- C4 amended: in the generate engine of ai_multi_model.py an unknown
category does fail fast (empty selection, ValueError raised before any
provider call, ledger untouched), while process_task silently routes
unknown categories to the default list (the counterexample). -/
theorem unknown_category_generate_fail_fast (call : ModelConfig → Except String (List Char))
    (prompt : List Char) (t : String) (ps pq : Bool) (mc : Option ℚ) (st : Ledger)
    (h : alookup t modelRegistry = none) :
    generate call prompt t ps pq mc st = (Except.error (GenErr.noModels t), st) := by
  have hsel : selectModels t ps pq mc = [] := by
    unfold selectModels registryGet
    rw [h]
    rfl
  unfold generate
  rw [hsel]

/-- Witness for the amended C4: code_review is unknown to the registry and
generate fails fast with the no-models error, leaving the ledger alone. -/
theorem unknown_category_generate_fail_fast_witness :
    generate c3call [] ("code_review") false false none emptyLedger
      = (Except.error (GenErr.noModels ("code_review")), emptyLedger) :=
  unknown_category_generate_fail_fast c3call [] ("code_review") false false none
    emptyLedger rfl

/-- Call pattern of the C2 counterexample: both top-2 candidates raise, the
third (never raced) candidate would succeed. -/
def c2call : AIModel → Except String AIResp := fun m =>
  match m with
  | AIModel.GEMINI_PRO => Except.ok respOK
  | _ => Except.error ("boom")

/-- C2 counterexample: for sentiment_analysis (three candidates) with
use_parallel, both raced candidates fail, the engine retries only
candidate 0 and then gives up, although candidate 2 (gemini) would have
succeeded — so the fallback is not a sequential failover over the full
candidate list and not every candidate is attempted before failure. -/
theorem parallel_fallback_counterexample :
    (processTask c2call ("sentiment_analysis") true).success = false
    ∧ AIModel.GEMINI_PRO ∈ routingGet ("sentiment_analysis")
    ∧ c2call AIModel.GEMINI_PRO = Except.ok respOK
    ∧ respOK.success = true := by
  refine ⟨rfl, by decide, rfl, rfl⟩

/-- C2 amended: when zero of the K = 2 raced candidates succeed, the engine
makes exactly one more call, to candidate index 0, and returns its outcome
directly; if that call raises too, the request fails with the generic
unknown-model failure response — candidates beyond the top two are never
attempted. -/
theorem parallel_fallback_single_retry (call : AIModel → Except String AIResp)
    (t : String)
    (hlen : 1 < (routingGet t).length)
    (hv : validOutcomes call t = []) :
    (∀ r, call ((routingGet t).headD AIModel.CLAUDE_SONNET) = Except.ok r →
        processTask call t true = r)
    ∧ (∀ e, call ((routingGet t).headD AIModel.CLAUDE_SONNET) = Except.error e →
        processTask call t true = unknownFailure e
        ∧ (processTask call t true).success = false) := by
  have hbase : processTask call t true =
      (match call ((routingGet t).headD AIModel.CLAUDE_SONNET) with
       | Except.ok r => r
       | Except.error e => unknownFailure e) := by
    unfold processTask
    rw [if_pos ⟨rfl, hlen⟩, hv]
  constructor
  · intro r hr
    rw [hbase, hr]
  · intro e he
    rw [hbase, he]
    exact ⟨rfl, rfl⟩

/-- Witness for the amended C2: with both raced sentiment candidates
failing, the fallback call to candidate 0 also raises and the outcome is
the generic failure. -/
theorem parallel_fallback_single_retry_witness :
    processTask c2call ("sentiment_analysis") true = unknownFailure ("boom")
    ∧ (processTask c2call ("sentiment_analysis") true).success = false :=
  (parallel_fallback_single_retry c2call ("sentiment_analysis")
    (by decide) rfl).2 ("boom") rfl

/-- Successful consensus response of rank 0 (confidence 0). -/
def respA : AIResp :=
  { success := true, model := ("claude-3-5-sonnet-20241022"), confidence := 0,
    result := none, error := none }

/-- Successful consensus response of rank 1 (confidence 1). -/
def respB : AIResp :=
  { success := true, model := ("gpt-4-turbo-preview"), confidence := 1,
    result := none, error := none }

/-- Consensus call pattern: both raced candidates succeed. -/
def c1call : AIModel → Except String AIResp := fun m =>
  match m with
  | AIModel.CLAUDE_SONNET => Except.ok respA
  | AIModel.GPT4_TURBO => Except.ok respB
  | _ => Except.error ("down")

/-- A call pattern agreeing with c1call on the two raced candidates but
differing on the rest. -/
def c1call2 : AIModel → Except String AIResp := fun m =>
  match m with
  | AIModel.CLAUDE_SONNET => Except.ok respA
  | AIModel.GPT4_TURBO => Except.ok respB
  | _ => Except.ok respA

/-- C1: with use_parallel on a category routed to more than one model, both
top-2 calls are collected and, when at least one succeeds, the result is
the Python max by confidence over the successful outcomes in selector
order: it is one of them, no successful outcome has higher confidence,
every earlier outcome has strictly lower confidence (so the earliest of
equal maxima wins), and the decision is a pure function of the per-rank
outcomes — two calls agreeing on the two raced candidates give identical
results, independent of wall-clock completion order. -/
theorem parallel_consensus_best (call call2 : AIModel → Except String AIResp)
    (t : String) (v : AIResp) (vs : List AIResp)
    (hlen : 1 < (routingGet t).length)
    (hv : validOutcomes call t = v :: vs)
    (hagree : ∀ m ∈ (routingGet t).take 2, call m = call2 m) :
    processTask call t true = pyMaxConf v vs
    ∧ (∃ pre post, validOutcomes call t = pre ++ processTask call t true :: post
        ∧ (∀ y ∈ pre, y.confidence < (processTask call t true).confidence)
        ∧ (∀ y ∈ post, y.confidence ≤ (processTask call t true).confidence))
    ∧ processTask call t true = processTask call2 t true := by
  have hpt : processTask call t true = pyMaxConf v vs := by
    unfold processTask
    rw [if_pos ⟨rfl, hlen⟩, hv]
  have hmap : ((routingGet t).take 2).map call = ((routingGet t).take 2).map call2 :=
    List.map_congr_left hagree
  have hv2 : validOutcomes call2 t = v :: vs := by
    unfold validOutcomes at hv ⊢
    rw [← hmap]
    exact hv
  have hpt2 : processTask call2 t true = pyMaxConf v vs := by
    unfold processTask
    rw [if_pos ⟨rfl, hlen⟩, hv2]
  refine ⟨hpt, ?_, by rw [hpt, hpt2]⟩
  rw [hpt, hv]
  exact pyMaxConf_split vs v

/-- Witness for C1: both sentiment candidates succeed with confidences 0
and 1; the rank-1 outcome wins on confidence, and a call agreeing on the
two raced candidates yields the identical decision. -/
theorem parallel_consensus_best_witness :
    processTask c1call ("sentiment_analysis") true = pyMaxConf respA [respB]
    ∧ processTask c1call ("sentiment_analysis") true
        = processTask c1call2 ("sentiment_analysis") true := by
  have hag : ∀ m ∈ (routingGet ("sentiment_analysis")).take 2, c1call m = c1call2 m := by
    rw [show (routingGet ("sentiment_analysis")).take 2
        = [AIModel.CLAUDE_SONNET, AIModel.GPT4_TURBO] from rfl]
    intro m hm
    rcases hm with _ | ⟨_, hm⟩
    · rfl
    rcases hm with _ | ⟨_, hm⟩
    · rfl
    cases hm
  have h := parallel_consensus_best c1call c1call2 ("sentiment_analysis") respA [respB]
    (by decide) rfl hag
  exact ⟨h.1, h.2.2⟩

/-- C6 amended: the interpreter returns the decoded document verbatim on
decode success and the raw_response wrapper with confidence 0.5 on decode
failure; on success the confidence is the top-level numeric confidence
field if present, else the numeric confidence nested under
overall_sentiment, else 0.85 — provided the decoded object does not itself
carry a top-level parsed field; when it does, that field's truthiness picks
between 0.85 and 0.5. -/
theorem interpreter_confidence (decode : List Char → Option JsonVal) (text : List Char) :
    (∀ j, decode (parseCandidate text) = some j → parseResponse decode text = j)
    ∧ (decode (parseCandidate text) = none →
        parseResponse decode text = degraded text
        ∧ calculateConfidence (parseResponse decode text) = some (1/2))
    ∧ (∀ fs q, decode (parseCandidate text) = some (JsonVal.obj fs) →
        alookup ("confidence") fs = some (JsonVal.num q) →
        calculateConfidence (parseResponse decode text) = some q)
    ∧ (∀ fs gs q, decode (parseCandidate text) = some (JsonVal.obj fs) →
        alookup ("confidence") fs = none →
        alookup ("overall_sentiment") fs = some (JsonVal.obj gs) →
        alookup ("confidence") gs = some (JsonVal.num q) →
        calculateConfidence (parseResponse decode text) = some q)
    ∧ (∀ fs, decode (parseCandidate text) = some (JsonVal.obj fs) →
        alookup ("confidence") fs = none →
        alookup ("overall_sentiment") fs = none →
        alookup ("parsed") fs = none →
        calculateConfidence (parseResponse decode text) = some (85/100))
    ∧ (∀ fs v, decode (parseCandidate text) = some (JsonVal.obj fs) →
        alookup ("confidence") fs = none →
        alookup ("overall_sentiment") fs = none →
        alookup ("parsed") fs = some v →
        calculateConfidence (parseResponse decode text)
          = some (if pyTruthy v then 85/100 else 1/2)) := by
  have hpr : ∀ j, decode (parseCandidate text) = some j →
      parseResponse decode text = j := by
    intro j hj
    unfold parseResponse
    rw [hj]
  refine ⟨hpr, ?_, ?_, ?_, ?_, ?_⟩
  · intro hn
    have h1 : parseResponse decode text = degraded text := by
      unfold parseResponse
      rw [hn]
    exact ⟨h1, by rw [h1]; rfl⟩
  · intro fs q hj hc
    rw [hpr _ hj]
    simp only [calculateConfidence, hc, pyFloat]
  · intro fs gs q hj hc hos hg
    rw [hpr _ hj]
    simp only [calculateConfidence, hc, hos, inOp, hg, Option.isSome_some,
      Option.getD_some, pyFloat]
  · intro fs hj hc hos hp
    rw [hpr _ hj]
    simp only [calculateConfidence, hc, hos, fallbackConfidence, hp]
  · intro fs v hj hc hos hp
    rw [hpr _ hj]
    simp only [calculateConfidence, hc, hos, fallbackConfidence, hp]

/-- The raw text of the C6 counterexample: a JSON document whose only
content is a parsed field set to false. -/
def pTxt : List Char := ("\x7b\"parsed\": false\x7d").toList

/-- Decoder for the C6 counterexample; it agrees with Python json.loads on
the input it is applied to. -/
def decodeP : List Char → Option JsonVal := fun s =>
  if s = pTxt then some (JsonVal.obj [(("parsed"), JsonVal.bool false)]) else none

/-- C6 counterexample: the raw text decodes successfully and carries no
confidence field at the top level nor under overall_sentiment, yet the
computed confidence is 0.5 rather than the claimed 0.85, because the
decoded document's own top-level parsed field shadows the interpreter's
parse flag. -/
theorem interpreter_default_counterexample :
    decodeP (parseCandidate pTxt) = some (JsonVal.obj [(("parsed"), JsonVal.bool false)])
    ∧ parseResponse decodeP pTxt = JsonVal.obj [(("parsed"), JsonVal.bool false)]
    ∧ alookup ("confidence") [(("parsed"), JsonVal.bool false)] = (none : Option JsonVal)
    ∧ alookup ("overall_sentiment") [(("parsed"), JsonVal.bool false)]
        = (none : Option JsonVal)
    ∧ calculateConfidence (parseResponse decodeP pTxt) = some (1/2)
    ∧ (1/2 : ℚ) ≠ 85/100 := by
  refine ⟨rfl, rfl, rfl, rfl, rfl, by norm_num⟩

/-- The fenced raw text of the spec's parse-degradation example. -/
def sTxt : List Char :=
  ("Sure, here you go:\n```json\n\x7b\"confidence\": 0.92, \"x\": 1\x7d\n```").toList

/-- The fenced body the extraction step isolates from sTxt. -/
def sBody : List Char := ("\x7b\"confidence\": 0.92, \"x\": 1\x7d").toList

/-- The decoded document of the spec's parse-degradation example. -/
def sObj : JsonVal :=
  JsonVal.obj [(("confidence"), JsonVal.num (92/100)), (("x"), JsonVal.num 1)]

/-- Decoder for the C6 witness; it agrees with Python json.loads on the
body it is applied to. -/
def decodeS : List Char → Option JsonVal := fun s =>
  if s = sBody then some sObj else none

/-- Witness for the amended C6: the json-fenced block is extracted, decoded,
returned verbatim, and its explicit confidence 0.92 is the outcome's
confidence. -/
theorem interpreter_confidence_witness :
    parseResponse decodeS sTxt = sObj
    ∧ calculateConfidence (parseResponse decodeS sTxt) = some (92/100) := by
  have h := interpreter_confidence decodeS sTxt
  have hd : decodeS (parseCandidate sTxt) = some sObj := rfl
  exact ⟨h.1 sObj hd, h.2.2.1 _ (92/100) hd rfl⟩

/-- The decoded document of the C7 counterexample: explicit confidence 5. -/
def conf5 : JsonVal := JsonVal.obj [(("confidence"), JsonVal.num 5)]

/-- The raw text of the C7 counterexample. -/
def txt7 : List Char := ("\x7b\"confidence\": 5\x7d").toList

/-- Decoder for the C7 counterexample; it agrees with Python json.loads on
the input it is applied to. -/
def dec7 : List Char → Option JsonVal := fun s =>
  if s = txt7 then some conf5 else none

/-- The outcome the engine produces in the C7 counterexample. -/
def r7 : AIResp :=
  { success := true, model := ("claude-3-5-sonnet-20241022"), confidence := 5,
    result := some conf5, error := none }

/-- C7 counterexample: a transport-successful call whose decoded body
carries the explicit numeric confidence 5 yields a successful outcome with
confidence 5, outside [0.0, 1.0] — the engine forwards explicit confidence
values unclamped. -/
theorem confidence_range_counterexample :
    callModel dec7 (Except.ok txt7) ("claude-3-5-sonnet-20241022") = Except.ok r7
    ∧ r7.success = true
    ∧ ¬ (r7.confidence ≤ 1) := by
  refine ⟨rfl, rfl, by decide⟩

/-- C7 amended: a successful outcome's confidence lies in [0,1] whenever
the decoded result carries no top-level confidence field and no
overall_sentiment entry (the defaults are 0.85 and 0.5); when a top-level
numeric confidence field is present the outcome's confidence equals that
field verbatim, with no clamping, so it can lie outside [0,1]. -/
theorem confidence_range_amended (decode : List Char → Option JsonVal)
    (raw : Except String (List Char)) (model : String) (r : AIResp)
    (h : callModel decode raw model = Except.ok r) :
    (∀ fs, r.result = some (JsonVal.obj fs) →
        alookup ("confidence") fs = none →
        alookup ("overall_sentiment") fs = none →
        0 ≤ r.confidence ∧ r.confidence ≤ 1)
    ∧ (∀ fs q, r.result = some (JsonVal.obj fs) →
        alookup ("confidence") fs = some (JsonVal.num q) →
        r.confidence = q) := by
  cases raw with
  | error e => simp [callModel] at h
  | ok text =>
    simp only [callModel] at h
    cases hcc : calculateConfidence (parseResponse decode text) with
    | none =>
      simp only [hcc] at h
      exact Except.noConfusion h
    | some c =>
      simp only [hcc] at h
      injection h with h2
      subst h2
      constructor
      · intro fs hres hc hos
        simp only [Option.some.injEq] at hres
        rw [hres] at hcc
        simp only [calculateConfidence, hc, hos, Option.some.injEq] at hcc
        subst hcc
        have hfb : fallbackConfidence fs = 85/100 ∨ fallbackConfidence fs = 1/2 := by
          cases hp : alookup ("parsed") fs with
          | none => exact Or.inl (by simp [fallbackConfidence, hp])
          | some v =>
            by_cases hv : pyTruthy v = true
            · exact Or.inl (by simp [fallbackConfidence, hp, hv])
            · exact Or.inr (by simp [fallbackConfidence, hp, hv])
        rcases hfb with h5 | h5 <;> rw [h5] <;> constructor <;> norm_num
      · intro fs q hres hc
        simp only [Option.some.injEq] at hres
        rw [hres] at hcc
        simp only [calculateConfidence, hc, pyFloat, Option.some.injEq] at hcc
        exact hcc.symm

/-- The raw text of the C7 witness run: a document with no confidence
field anywhere. -/
def txtB : List Char := ("\x7b\"x\": 1\x7d").toList

/-- Decoder for the C7 witness; it agrees with Python json.loads on the
input it is applied to. -/
def decB : List Char → Option JsonVal := fun s =>
  if s = txtB then some (JsonVal.obj [(("x"), JsonVal.num 1)]) else none

/-- The outcome of the C7 witness run (default confidence 0.85). -/
def rB : AIResp :=
  { success := true, model := ("claude-3-5-sonnet-20241022"), confidence := 85/100,
    result := some (JsonVal.obj [(("x"), JsonVal.num 1)]), error := none }

/-- Witness for the amended C7: with no explicit confidence field the
outcome's default confidence lies within [0, 1]. -/
theorem confidence_range_amended_witness :
    0 ≤ rB.confidence ∧ rB.confidence ≤ 1 :=
  (confidence_range_amended decB (Except.ok txtB) ("claude-3-5-sonnet-20241022")
    rB rfl).1 [(("x"), JsonVal.num 1)] rfl rfl rfl

/-- C10: the response parser is total (the dichotomy conjunct: every call
returns either the decoded value or the degraded raw_response wrapper,
never an exception), and when an opening fence marker has no closing fence
after it the closing-fence search yields -1, so the decode candidate is
the stripped text from just after the opening marker up to but excluding
the final character of the whole text — shown for the json-tagged marker
and for the bare marker. -/
theorem parser_unclosed_fence (decode : List Char → Option JsonVal) (text : List Char) :
    (∀ i : Nat, pyFind text fenceJson 0 = (i : Int) →
        pyFind text fence3 (i + 7) = -1 →
        parseCandidate text = pyStrip ((text.take (text.length - 1)).drop (i + 7)))
    ∧ (∀ i : Nat, pyFind text fenceJson 0 = -1 →
        pyFind text fence3 0 = (i : Int) →
        pyFind text fence3 (i + 3) = -1 →
        parseCandidate text = pyStrip ((text.take (text.length - 1)).drop (i + 3)))
    ∧ ((∃ j, decode (parseCandidate text) = some j ∧ parseResponse decode text = j)
        ∨ (decode (parseCandidate text) = none
            ∧ parseResponse decode text = degraded text)) := by
  refine ⟨?_, ?_, ?_⟩
  · intro i h1 h2
    have hb := pyFind_zero_spec h1
    have hlen7 : fenceJson.length = 7 := rfl
    have h7 : i + 7 ≤ text.length := by omega
    unfold parseCandidate
    rw [h1]
    have hne : ((i : Int)) ≠ -1 := by omega
    rw [if_pos hne]
    have htn : ((i : Int) + 7).toNat = i + 7 := by omega
    rw [htn, h2]
    have hcast : (i : Int) + 7 = ((i + 7 : Nat) : Int) := by omega
    rw [hcast, pySlice_to_neg_one h7]
  · intro i h1 h2 h3
    have hb := pyFind_zero_spec h2
    have hlen3 : fence3.length = 3 := rfl
    have h3le : i + 3 ≤ text.length := by omega
    unfold parseCandidate
    rw [h1, h2]
    have hne : ¬ ((-1 : Int) ≠ -1) := by omega
    rw [if_neg hne]
    have hne2 : ((i : Int)) ≠ -1 := by omega
    rw [if_pos hne2]
    have htn : ((i : Int) + 3).toNat = i + 3 := by omega
    rw [htn, h3]
    have hcast : (i : Int) + 3 = ((i + 3 : Nat) : Int) := by omega
    rw [hcast, pySlice_to_neg_one h3le]
  · cases hd : decode (parseCandidate text) with
    | some j =>
      exact Or.inl ⟨j, rfl, by unfold parseResponse; rw [hd]⟩
    | none =>
      exact Or.inr ⟨rfl, by unfold parseResponse; rw [hd]⟩

/-- The unclosed-fence raw text of the C10 witness. -/
def textW : List Char := ("```json ab").toList

/-- A decoder that always fails, for the C10 witness. -/
def decodeW : List Char → Option JsonVal := fun _ => none

/-- Witness for C10: on a text opening a json fence at index 0 with no
closing fence, the candidate is the stripped slice excluding the final
character, and the call returns the degraded wrapper. -/
theorem parser_unclosed_fence_witness :
    parseCandidate textW = pyStrip ((textW.take (textW.length - 1)).drop (0 + 7))
    ∧ ((∃ j, decodeW (parseCandidate textW) = some j
          ∧ parseResponse decodeW textW = j)
        ∨ (decodeW (parseCandidate textW) = none
            ∧ parseResponse decodeW textW = degraded textW)) :=
  ⟨(parser_unclosed_fence decodeW textW).1 0 rfl rfl,
   (parser_unclosed_fence decodeW textW).2.2⟩

end MMApp
